import Mathlib

/-!
Shallow embedding of the CRM GraphQL schema layer (`crm/schema.py`) together
with the persisted data model it manipulates.  Database tables are lists of
records; primary keys are naturals handed out by per-table counters, matching
the auto-increment ids of the relational store.  Decimal amounts are rationals.
Mutation resolvers become pure functions from a database state and an input to
a result envelope paired with the successor state; the `try/except` structure
of the Python code becomes explicit branching, and every failure path returns
the original state unchanged (the transaction aborts).
-/

namespace Crm

/-- A persisted customer row (`crm.models.Customer`): name, unique email and
an optional phone string. -/
structure Customer where
  id : Nat
  name : String
  email : String
  phone : Option String
deriving DecidableEq

/-- A persisted product row (`crm.models.Product`): name, decimal price and
integer stock. -/
structure Product where
  id : Nat
  name : String
  price : Rat
  stock : Int
deriving DecidableEq

/-- A persisted order row (`crm.models.Order`): customer reference and the
decimal total amount computed at creation time. -/
structure Order where
  id : Nat
  customerId : Nat
  totalAmount : Rat
deriving DecidableEq

/-- A persisted order-item row (`crm.models.OrderItem`): order and product
references, quantity and the unit price snapshotted at creation time. -/
structure OrderItem where
  id : Nat
  orderId : Nat
  productId : Nat
  quantity : Nat
  unitPrice : Rat
deriving DecidableEq

/-- The relational store: one list per table plus the auto-increment counters
that produce fresh primary keys. -/
structure DB where
  customers : List Customer
  products : List Product
  orders : List Order
  orderItems : List OrderItem
  nextCustomerId : Nat
  nextProductId : Nat
  nextOrderId : Nat
  nextOrderItemId : Nat
deriving DecidableEq

/-- The empty store. -/
def DB.empty : DB := ⟨[], [], [], [], 1, 1, 1, 1⟩

/-- Lookup `Customer.objects.get(id=..)` as an optional result. -/
def getCustomer (db : DB) (id : Nat) : Option Customer :=
  db.customers.find? (fun c => c.id == id)

/-- Lookup `Product.objects.get(id=..)` as an optional result. -/
def getProduct (db : DB) (id : Nat) : Option Product :=
  db.products.find? (fun p => p.id == id)

/-- Lookup `Order.objects.get(id=..)` as an optional result. -/
def getOrder (db : DB) (id : Nat) : Option Order :=
  db.orders.find? (fun o => o.id == id)

/-- Existence check `Customer.objects.filter(email=..).exists()`. -/
def emailExists (db : DB) (email : String) : Bool :=
  db.customers.any (fun c => c.email == email)

/-! ### The phone regex

`CreateCustomer.validate_phone` checks `re.match` against the fixed pattern
`^(\+\d{1,3}[- ]?)?\d{3}[- ]?\d{3}[- ]?\d{4}$`.  We implement a matcher for
exactly this pattern over the character list of the string: `\d` is a decimal
digit, `[- ]?` optionally consumes one dash or space (both alternatives are
explored), and the trailing `$` accepts the end of the string or a single
trailing newline, as in Python. -/

/-- Consume exactly `n` decimal digits, returning the remainder. -/
def takeDigits : Nat → List Char → Option (List Char)
  | 0, l => some l
  | _ + 1, [] => none
  | n + 1, c :: l => if c.isDigit then takeDigits n l else none

/-- The two continuations of `[- ]?`: consume one separator if present, or
consume nothing. -/
def sepBranches (l : List Char) : List (List Char) :=
  match l with
  | c :: rest => if c = '-' || c = ' ' then [rest, c :: rest] else [c :: rest]
  | [] => [[]]

/-- Python's `$`: end of input or a single trailing newline. -/
def matchEnd (l : List Char) : Bool :=
  l = [] || l = ['\n']

/-- The mandatory tail of the pattern: `\d{3}[- ]?\d{3}[- ]?\d{4}$`. -/
def matchCore (l : List Char) : Bool :=
  match takeDigits 3 l with
  | none => false
  | some l1 =>
    (sepBranches l1).any fun l2 =>
      match takeDigits 3 l2 with
      | none => false
      | some l3 =>
        (sepBranches l3).any fun l4 =>
          match takeDigits 4 l4 with
          | none => false
          | some l5 => matchEnd l5

/-- The optional group `(\+\d{1,3}[- ]?)?` followed by the core: a plus sign,
one to three digits (every backtracking choice is tried), an optional
separator, then the core. -/
def matchPlusGroup (l : List Char) : Bool :=
  match l with
  | '+' :: t =>
    [1, 2, 3].any fun k =>
      match takeDigits k t with
      | none => false
      | some rest => (sepBranches rest).any matchCore
  | _ => false

/-- Whether `re.match(pattern, s)` succeeds for the phone pattern. -/
def phoneRegexMatch (s : String) : Bool :=
  matchPlusGroup s.data || matchCore s.data

/-- Validation `CreateCustomer.validate_phone`: Python's `if phone:` skips it when
the phone is `None` or the empty string; otherwise the regex must match
(a mismatch raises `ValidationError`).  Returns `true` when no error is
raised. -/
def validate_phone (phone : Option String) : Bool :=
  match phone with
  | none => true
  | some s => if s.isEmpty then true else phoneRegexMatch s

/-! ### createCustomer -/

/-- Input shape `CustomerInput{name!, email!, phone}`. -/
structure CustomerInput where
  name : String
  email : String
  phone : Option String
deriving DecidableEq

/-- The `{customer, message, success}` envelope of `CreateCustomer`. -/
structure CreateCustomerResult where
  customer : Option Customer
  message : String
  success : Bool
deriving DecidableEq

/-- The phone-format error message raised by `validate_phone`. -/
def phoneErrorMsg : String :=
  "Invalid phone number format. Use +1234567890 or 123-456-7890"

/-- Mutation `CreateCustomer.mutate`: reject a duplicate email, then validate the phone
format, then persist.  `full_clean` is modelled from the spec: `crm/models.py`
is not among the sources, and the spec's data model (section 3) imposes no
customer constraint beyond email uniqueness and phone format, so `full_clean`
raises nothing here.  Every raised `ValidationError` is caught and converted
into the failure envelope with the store untouched. -/
def createCustomer (db : DB) (input : CustomerInput) :
    CreateCustomerResult × DB :=
  if emailExists db input.email then
    (⟨none, "Email already exists", false⟩, db)
  else if !validate_phone input.phone then
    (⟨none, phoneErrorMsg, false⟩, db)
  else
    let c : Customer := ⟨db.nextCustomerId, input.name, input.email, input.phone⟩
    (⟨some c, "Customer created successfully", true⟩,
     { db with customers := db.customers ++ [c],
               nextCustomerId := db.nextCustomerId + 1 })

/-! ### createProduct -/

/-- Input shape `ProductInput{name!, price!, stock}`. -/
structure ProductInput where
  name : String
  price : Rat
  stock : Option Int
deriving DecidableEq

/-- The `{product, message, success}` envelope of `CreateProduct`. -/
structure CreateProductResult where
  product : Option Product
  message : String
  success : Bool
deriving DecidableEq

/-- Mutation `CreateProduct.mutate`: reject a non-positive price, default an omitted
stock to 0, reject a negative stock, otherwise persist.  All raised
`ValidationError`s are caught into the failure envelope with the store
untouched. -/
def createProduct (db : DB) (input : ProductInput) :
    CreateProductResult × DB :=
  if input.price ≤ 0 then
    (⟨none, "Price must be positive", false⟩, db)
  else
    let stock := input.stock.getD 0
    if stock < 0 then
      (⟨none, "Stock cannot be negative", false⟩, db)
    else
      let p : Product := ⟨db.nextProductId, input.name, input.price, stock⟩
      (⟨some p, "Product created successfully", true⟩,
       { db with products := db.products ++ [p],
                 nextProductId := db.nextProductId + 1 })

/-! ### bulkCreateCustomers -/

/-- The `{customers, errors, success}` envelope of `BulkCreateCustomers`. -/
structure BulkResult where
  customers : List Customer
  errors : List String
  success : Bool
deriving DecidableEq

/-- One iteration of the `BulkCreateCustomers.mutate` loop body: the duplicate
email is reported and skipped (`continue`), a phone `ValidationError` is caught
and reported, otherwise the row is saved inside the shared transaction (saved
rows are visible to the uniqueness checks of later iterations).  As in
`createCustomer`, `full_clean` is modelled from the spec as raising nothing. -/
def processOne (db : DB) (input : CustomerInput) : DB × Except String Customer :=
  if emailExists db input.email then
    (db, Except.error ("Email " ++ input.email ++ " already exists"))
  else if !validate_phone input.phone then
    (db, Except.error ("Validation error for " ++ input.email ++ ": " ++ phoneErrorMsg))
  else
    let c : Customer := ⟨db.nextCustomerId, input.name, input.email, input.phone⟩
    ({ db with customers := db.customers ++ [c],
               nextCustomerId := db.nextCustomerId + 1 },
     Except.ok c)

/-- The `for input_data in inputs:` loop of `BulkCreateCustomers.mutate`,
threading the store and the two accumulator lists. -/
def bulkLoop : DB → List Customer → List String → List CustomerInput →
    DB × List Customer × List String
  | db, cs, errs, [] => (db, cs, errs)
  | db, cs, errs, i :: rest =>
    match processOne db i with
    | (db1, Except.ok c) => bulkLoop db1 (cs ++ [c]) errs rest
    | (db1, Except.error e) => bulkLoop db1 cs (errs ++ [e]) rest

/-- Mutation `BulkCreateCustomers.mutate`: run the loop, then report the created rows,
the collected error strings and `success = len(customers) > 0`. -/
def bulkCreateCustomers (db : DB) (inputs : List CustomerInput) :
    BulkResult × DB :=
  (⟨(bulkLoop db [] [] inputs).2.1,
    (bulkLoop db [] [] inputs).2.2,
    decide (0 < (bulkLoop db [] [] inputs).2.1.length)⟩,
   (bulkLoop db [] [] inputs).1)

/-- The per-input outcomes of a bulk call, in input order: for each input,
either the created customer or its error string, under the store as it stands
when that input is processed. -/
def bulkOutcomes : DB → List CustomerInput → List (Except String Customer)
  | _, [] => []
  | db, i :: rest =>
    match processOne db i with
    | (db1, r) => r :: bulkOutcomes db1 rest

/-! ### createOrder -/

/-- Input shape `OrderInput{customerId!, productIds![], orderDate}` (the
optional order date plays no part in any computation and is omitted). -/
structure OrderInput where
  customerId : Nat
  productIds : List Nat
deriving DecidableEq

/-- The `{order, message, success}` envelope of `CreateOrder`. -/
structure CreateOrderResult where
  order : Option Order
  message : String
  success : Bool
deriving DecidableEq

/-- The product-resolution loop of `CreateOrder.mutate`: resolve each id in
input order, failing on the first id with no row and naming it. -/
def resolveProducts (db : DB) : List Nat → Except String (List Product)
  | [] => Except.ok []
  | pid :: rest =>
    match getProduct db pid with
    | none => Except.error ("Product with ID " ++ toString pid ++ " does not exist")
    | some p =>
      match resolveProducts db rest with
      | Except.error e => Except.error e
      | Except.ok ps => Except.ok (p :: ps)

/-- The order-item creation loop: one `OrderItem` per resolved product, in
order, with quantity 1 and the product's current price, ids handed out by the
auto-increment counter. -/
def buildItems (orderId : Nat) (startId : Nat) : List Product → List OrderItem
  | [] => []
  | p :: rest => ⟨startId, orderId, p.id, 1, p.price⟩ :: buildItems orderId (startId + 1) rest

/-- Mutation `CreateOrder.mutate`: resolve the customer (failing with "Customer does
not exist"), resolve the products in input order, reject an empty resolved
list, compute the total as the running sum of the resolved prices, then in one
transaction insert the order and one item per product.  Every raised error is
caught into the failure envelope with the store untouched. -/
def createOrder (db : DB) (input : OrderInput) : CreateOrderResult × DB :=
  match getCustomer db input.customerId with
  | none => (⟨none, "Customer does not exist", false⟩, db)
  | some customer =>
    match resolveProducts db input.productIds with
    | Except.error e => (⟨none, e, false⟩, db)
    | Except.ok products =>
      if products.isEmpty then
        (⟨none, "At least one product is required", false⟩, db)
      else
        let totalAmount := products.foldl (fun acc p => acc + p.price) 0
        let order : Order := ⟨db.nextOrderId, customer.id, totalAmount⟩
        let items := buildItems order.id db.nextOrderItemId products
        (⟨some order, "Order created successfully", true⟩,
         { db with orders := db.orders ++ [order],
                   orderItems := db.orderItems ++ items,
                   nextOrderId := db.nextOrderId + 1,
                   nextOrderItemId := db.nextOrderItemId + products.length })

/-! ### Point queries -/

/-- Resolver `Query.resolve_customer`: a bare `objects.get` with no handler;
a missing row raises `DoesNotExist`. -/
def resolve_customer (db : DB) (id : Nat) : Except String Customer :=
  match getCustomer db id with
  | some c => Except.ok c
  | none => Except.error "Customer matching query does not exist."

/-- Resolver `Query.resolve_product`: a bare `objects.get` with no handler. -/
def resolve_product (db : DB) (id : Nat) : Except String Product :=
  match getProduct db id with
  | some p => Except.ok p
  | none => Except.error "Product matching query does not exist."

/-- Resolver `Query.resolve_order`: a bare `objects.get` with no handler. -/
def resolve_order (db : DB) (id : Nat) : Except String Order :=
  match getOrder db id with
  | some o => Except.ok o
  | none => Except.error "Order matching query does not exist."

/-- Modelled from the spec: the GraphQL execution layer (the graphene
framework wiring, not part of the sources) converts an exception that escapes
a resolver into a transport-level error entry, and a normal return into data.
A transport-level error is a distinct outcome from any mutation envelope. -/
inductive QueryOutcome (α : Type) where
  | data (value : α)
  | transportError (message : String)
deriving DecidableEq

/-- Modelled from the spec: running a point query through the transport layer. -/
def runQuery {α : Type} (r : Except String α) : QueryOutcome α :=
  match r with
  | Except.ok v => QueryOutcome.data v
  | Except.error m => QueryOutcome.transportError m

/-! ### Sample data

Concrete stores used to instantiate the universally quantified theorems on
explicit inputs, mirroring the fixtures of the seed script. -/

/-- A store with one customer and two products of integral prices 10 and 20. -/
def sampleDB : DB :=
  ⟨[⟨1, "Alice Johnson", "alice@example.com", none⟩],
   [⟨1, "Laptop", 10, 5⟩, ⟨2, "Mouse", 20, 50⟩],
   [], [], 2, 3, 1, 1⟩

/-! ### Helper lemmas -/

/-- The running total of `CreateOrder.mutate` equals the sum of the resolved
prices. -/
theorem foldl_price_eq_sum (ps : List Product) :
    ps.foldl (fun acc p => acc + p.price) 0 = (ps.map Product.price).sum := by
  rw [List.sum_eq_foldl, List.foldl_map]

/-- Product resolution succeeds with one product per input id. -/
theorem resolveProducts_ok_length (db : DB) (pids : List Nat) (ps : List Product)
    (h : resolveProducts db pids = Except.ok ps) : ps.length = pids.length := by
  induction pids generalizing ps with
  | nil =>
    simp only [resolveProducts] at h
    cases h
    rfl
  | cons pid rest ih =>
    simp only [resolveProducts] at h
    cases hp : getProduct db pid with
    | none => rw [hp] at h; cases h
    | some p =>
      rw [hp] at h
      cases hr : resolveProducts db rest with
      | error e => rw [hr] at h; cases h
      | ok ps0 =>
        rw [hr] at h
        cases h
        simp [ih ps0 hr]

/-- A processing failure of one bulk row leaves the store untouched. -/
theorem processOne_error_db (db : DB) (i : CustomerInput) (e : String)
    (h : (processOne db i).2 = Except.error e) : (processOne db i).1 = db := by
  unfold processOne at *
  by_cases h1 : emailExists db i.email
  · simp [h1]
  · by_cases h2 : validate_phone i.phone
    · simp [h1, h2] at h
    · simp [h1, h2]

/-- A successful bulk row appends exactly the created customer to the table. -/
theorem processOne_ok_db (db : DB) (i : CustomerInput) (c : Customer)
    (h : (processOne db i).2 = Except.ok c) :
    (processOne db i).1.customers = db.customers ++ [c] := by
  unfold processOne at *
  by_cases h1 : emailExists db i.email
  · simp [h1] at h
  · by_cases h2 : validate_phone i.phone
    · simp only [h1, h2] at h ⊢
      simp at h ⊢
      simp [← h]
    · simp [h1, h2] at h

/-- The bulk loop's final store and appended results do not depend on the
accumulators: running from `cs`/`errs` just prefixes the run from empty
accumulators. -/
theorem bulkLoop_acc (db : DB) (cs : List Customer) (errs : List String)
    (inputs : List CustomerInput) :
    bulkLoop db cs errs inputs =
      ((bulkLoop db [] [] inputs).1,
       cs ++ (bulkLoop db [] [] inputs).2.1,
       errs ++ (bulkLoop db [] [] inputs).2.2) := by
  induction inputs generalizing db cs errs with
  | nil => simp [bulkLoop]
  | cons i rest ih =>
    rcases hp : processOne db i with ⟨db1, r⟩
    cases r with
    | ok c =>
      simp only [bulkLoop, hp]
      rw [ih db1 (cs ++ [c]) errs, ih db1 ([] ++ [c]) []]
      simp
    | error e =>
      simp only [bulkLoop, hp]
      rw [ih db1 cs (errs ++ [e]), ih db1 [] ([] ++ [e])]
      simp

/-- Splitting the bulk loop across an input-list append. -/
theorem bulkLoop_append (db : DB) (xs ys : List CustomerInput) :
    bulkLoop db [] [] (xs ++ ys) =
      ((bulkLoop (bulkLoop db [] [] xs).1 [] [] ys).1,
       (bulkLoop db [] [] xs).2.1 ++ (bulkLoop (bulkLoop db [] [] xs).1 [] [] ys).2.1,
       (bulkLoop db [] [] xs).2.2 ++ (bulkLoop (bulkLoop db [] [] xs).1 [] [] ys).2.2) := by
  induction xs generalizing db with
  | nil => simp [bulkLoop]
  | cons i rest ih =>
    rcases hp : processOne db i with ⟨db1, r⟩
    cases r with
    | ok c =>
      simp only [List.cons_append, bulkLoop, hp, List.append_eq]
      rw [bulkLoop_acc db1 ([] ++ [c]) [] (rest ++ ys), ih db1,
          bulkLoop_acc db1 ([] ++ [c]) [] rest]
      simp
    | error e =>
      simp only [List.cons_append, bulkLoop, hp, List.append_eq]
      rw [bulkLoop_acc db1 [] ([] ++ [e]) (rest ++ ys), ih db1,
          bulkLoop_acc db1 [] ([] ++ [e]) rest]
      simp

/-- The created-customer and error lists of the bulk loop are exactly the ok
and error parts of the per-input outcome list, in order. -/
theorem bulkLoop_outcomes (db : DB) (inputs : List CustomerInput) :
    (bulkLoop db [] [] inputs).2.1 =
        (bulkOutcomes db inputs).filterMap Except.toOption ∧
      (bulkLoop db [] [] inputs).2.2 =
        (bulkOutcomes db inputs).filterMap
          (fun r => match r with | Except.error e => some e | Except.ok _ => none) := by
  induction inputs generalizing db with
  | nil => simp [bulkLoop, bulkOutcomes]
  | cons i rest ih =>
    rcases hp : processOne db i with ⟨db1, r⟩
    cases r with
    | ok c =>
      simp only [bulkLoop, bulkOutcomes, hp]
      rw [bulkLoop_acc db1 ([] ++ [c]) []]
      simp [List.filterMap_cons, Except.toOption, (ih db1).1, (ih db1).2]
    | error e =>
      simp only [bulkLoop, bulkOutcomes, hp]
      rw [bulkLoop_acc db1 [] ([] ++ [e])]
      simp [List.filterMap_cons, Except.toOption, (ih db1).1, (ih db1).2]

/-- No rollback: the customer table after a bulk call is the initial table
with exactly the created rows appended. -/
theorem bulkLoop_db_customers (db : DB) (inputs : List CustomerInput) :
    (bulkLoop db [] [] inputs).1.customers =
      db.customers ++ (bulkLoop db [] [] inputs).2.1 := by
  induction inputs generalizing db with
  | nil => simp [bulkLoop]
  | cons i rest ih =>
    rcases hp : processOne db i with ⟨db1, r⟩
    cases r with
    | ok c =>
      have hdb1 : db1.customers = db.customers ++ [c] := by
        have := processOne_ok_db db i c (by rw [hp])
        rwa [hp] at this
      simp only [bulkLoop, hp]
      rw [bulkLoop_acc db1 ([] ++ [c]) []]
      simp [ih db1, hdb1]
    | error e =>
      have hdb1 : db1 = db := by
        have := processOne_error_db db i e (by rw [hp])
        rwa [hp] at this
      subst hdb1
      simp only [bulkLoop, hp]
      rw [bulkLoop_acc db1 [] ([] ++ [e])]
      simp [ih db1]

/-- Resolution fails exactly at the first unresolvable id, naming it. -/
theorem resolveProducts_first_missing (db : DB) (pre : List Nat) (pid : Nat)
    (rest : List Nat) (hpre : ∀ q ∈ pre, getProduct db q ≠ none)
    (hpid : getProduct db pid = none) :
    resolveProducts db (pre ++ pid :: rest) =
      Except.error ("Product with ID " ++ toString pid ++ " does not exist") := by
  induction pre with
  | nil => simp [resolveProducts, hpid]
  | cons q pre' ih =>
    have hq : getProduct db q ≠ none := hpre q (List.mem_cons_self q pre')
    rcases hq2 : getProduct db q with _ | p
    · exact absurd hq2 hq
    · simp only [List.cons_append, resolveProducts, hq2, List.append_eq]
      rw [ih (fun r hr => hpre r (List.mem_cons_of_mem q hr))]

/-- Every resolution error message names a product id. -/
theorem resolveProducts_error_shape (db : DB) (pids : List Nat) (m : String)
    (h : resolveProducts db pids = Except.error m) :
    ∃ pid : Nat, m = "Product with ID " ++ toString pid ++ " does not exist" := by
  induction pids with
  | nil => simp [resolveProducts] at h
  | cons pid rest ih =>
    simp only [resolveProducts] at h
    rcases hq : getProduct db pid with _ | p
    · rw [hq] at h
      cases h
      exact ⟨pid, rfl⟩
    · rw [hq] at h
      rcases hr : resolveProducts db rest with e | ps
      · rw [hr] at h
        cases h
        exact ih hr
      · rw [hr] at h
        cases h

/-- The item loop makes one row per product, in order, each with quantity 1
and the product's current price. -/
theorem buildItems_fields (orderId startId : Nat) (ps : List Product) :
    (buildItems orderId startId ps).map
        (fun it => (it.orderId, it.productId, it.quantity, it.unitPrice)) =
      ps.map (fun p => (orderId, p.id, 1, p.price)) := by
  induction ps generalizing startId with
  | nil => rfl
  | cons p rest ih => simp [buildItems, ih]

/-- The item loop makes exactly one row per product. -/
theorem buildItems_length (orderId startId : Nat) (ps : List Product) :
    (buildItems orderId startId ps).length = ps.length := by
  induction ps generalizing startId with
  | nil => rfl
  | cons p rest ih => simp [buildItems, ih]

/-- A string starting with the product-error prefix differs from the
empty-list error message. -/
theorem product_msg_ne_empty_msg (s : String) :
    "Product with ID " ++ s ≠ "At least one product is required" := by
  intro h
  have h2 : ("Product with ID " ++ s).data.head? =
      "At least one product is required".data.head? := by rw [h]
  rw [String.data_append] at h2
  have h3 : "Product with ID ".data = 'P' :: "roduct with ID ".data := rfl
  rw [h3, List.cons_append, List.head?_cons] at h2
  have h4 : "At least one product is required".data.head? = some 'A' := rfl
  rw [h4] at h2
  cases h2

/-! ### Claim theorems -/

/-- C3: for every createCustomer call whose email already exists among the
persisted customers, the mutation returns customer null, success false and a
non-empty message, and no new customer row is persisted: the store, and in
particular the customer count, is unchanged. -/
theorem createCustomer_duplicate_email (db : DB) (input : CustomerInput)
    (h : emailExists db input.email = true) :
    createCustomer db input = (⟨none, "Email already exists", false⟩, db) ∧
      "Email already exists" ≠ "" ∧
      (createCustomer db input).2.customers.length = db.customers.length := by
  have h1 : createCustomer db input = (⟨none, "Email already exists", false⟩, db) := by
    simp [createCustomer, h]
  exact ⟨h1, by decide, by rw [h1]⟩

/-- C3 witness: on a store already holding alice@example.com, creating a
second customer with that email fails and leaves the store unchanged. -/
theorem createCustomer_duplicate_email_witness :
    emailExists sampleDB "alice@example.com" = true ∧
      createCustomer sampleDB ⟨"Imposter", "alice@example.com", none⟩ =
        (⟨none, "Email already exists", false⟩, sampleDB) := by
  refine ⟨by decide, ?_⟩
  exact (createCustomer_duplicate_email sampleDB
    ⟨"Imposter", "alice@example.com", none⟩ (by decide)).1

/-- C4 (the code at the claim): the regex of `validate_phone` rejects the
phone "+1234567890", the very format the code's own comment and error message
advertise, so a createCustomer call with a fresh email and that phone fails;
"123-456-7890" matches and "123-45-6789" does not, as claimed. -/
theorem plus_phone_rejected :
    phoneRegexMatch "+1234567890" = false ∧
      phoneRegexMatch "123-456-7890" = true ∧
      phoneRegexMatch "123-45-6789" = false ∧
      emailExists DB.empty "alice@example.com" = false ∧
      (createCustomer DB.empty ⟨"Alice", "alice@example.com", some "+1234567890"⟩).1 =
        ⟨none, phoneErrorMsg, false⟩ := by
  decide

/-- C9: for every point query (customer, product, order by id) whose id does
not resolve to a persisted row, the resolver's uncaught not-found fault
surfaces as a transport-level error, not as a success/message envelope. -/
theorem point_query_not_found (db : DB) (id : Nat) :
    (getCustomer db id = none →
      runQuery (resolve_customer db id) =
        QueryOutcome.transportError "Customer matching query does not exist.") ∧
      (getProduct db id = none →
        runQuery (resolve_product db id) =
          QueryOutcome.transportError "Product matching query does not exist.") ∧
      (getOrder db id = none →
        runQuery (resolve_order db id) =
          QueryOutcome.transportError "Order matching query does not exist.") := by
  refine ⟨fun h => ?_, fun h => ?_, fun h => ?_⟩
  · simp [resolve_customer, runQuery, h]
  · simp [resolve_product, runQuery, h]
  · simp [resolve_order, runQuery, h]

/-- C9 witness: on the empty store, id 1 resolves in none of the three
tables and each point query yields a transport-level error. -/
theorem point_query_not_found_witness :
    runQuery (resolve_customer DB.empty 1) =
        QueryOutcome.transportError "Customer matching query does not exist." ∧
      runQuery (resolve_product DB.empty 1) =
        QueryOutcome.transportError "Product matching query does not exist." ∧
      runQuery (resolve_order DB.empty 1) =
        QueryOutcome.transportError "Order matching query does not exist." :=
  ⟨(point_query_not_found DB.empty 1).1 rfl,
   (point_query_not_found DB.empty 1).2.1 rfl,
   (point_query_not_found DB.empty 1).2.2 rfl⟩

/-- The bulk loop adds exactly one element, to one of the two accumulator
lists, per processed input. -/
theorem bulkLoop_total_length (db : DB) (cs : List Customer) (errs : List String)
    (inputs : List CustomerInput) :
    (bulkLoop db cs errs inputs).2.1.length + (bulkLoop db cs errs inputs).2.2.length =
      cs.length + errs.length + inputs.length := by
  induction inputs generalizing db cs errs with
  | nil => simp [bulkLoop]
  | cons i rest ih =>
    rcases hp : processOne db i with ⟨db1, r⟩
    cases r with
    | ok c =>
      simp only [bulkLoop, hp]
      have := ih db1 (cs ++ [c]) errs
      simp at this ⊢
      omega
    | error e =>
      simp only [bulkLoop, hp]
      have := ih db1 cs (errs ++ [e])
      simp at this ⊢
      omega

/-- C10: in every bulkCreateCustomers call, each input entry contributes
exactly one outcome, so the returned customers and errors lists together have
exactly one entry per input. -/
theorem bulk_outcome_partition (db : DB) (inputs : List CustomerInput) :
    (bulkCreateCustomers db inputs).1.customers.length +
      (bulkCreateCustomers db inputs).1.errors.length = inputs.length := by
  have := bulkLoop_total_length db [] [] inputs
  simpa [bulkCreateCustomers] using this

/-- C1: for every createOrder call whose customer id resolves and whose
product ids all resolve (to the non-empty list `ps`), the created order's
total amount is the sum of the resolved products' current prices, the new
order-item rows are exactly one per resolved product with quantity 1 and unit
price equal to that product's current price, and the pre-existing item rows
are untouched. -/
theorem createOrder_total_and_items (db : DB) (input : OrderInput)
    (c : Customer) (ps : List Product)
    (hc : getCustomer db input.customerId = some c)
    (hps : resolveProducts db input.productIds = Except.ok ps)
    (hne : ps ≠ []) :
    (createOrder db input).1.success = true ∧
      (createOrder db input).1.order =
        some ⟨db.nextOrderId, c.id, (ps.map Product.price).sum⟩ ∧
      (createOrder db input).2.orderItems.length =
        db.orderItems.length + ps.length ∧
      ((createOrder db input).2.orderItems.drop db.orderItems.length).map
          (fun it => (it.orderId, it.productId, it.quantity, it.unitPrice)) =
        ps.map (fun p => (db.nextOrderId, p.id, 1, p.price)) ∧
      (createOrder db input).2.orderItems.take db.orderItems.length =
        db.orderItems := by
  have hie : ps.isEmpty = false := by
    cases ps with
    | nil => exact absurd rfl hne
    | cons p rest => rfl
  simp only [createOrder, hc, hps, hie, Bool.false_eq_true, if_false]
  refine ⟨trivial, ?_, ?_, ?_, ?_⟩
  · rw [foldl_price_eq_sum]
  · simp [buildItems_length]
  · rw [List.drop_left]
    exact buildItems_fields _ _ _
  · rw [List.take_left]

/-- C1 witness: on the sample store, ordering products 1 and 2 (prices 10
and 20) by the existing customer yields total 10 + 20 = 30 and exactly two
new item rows, one per product, each with quantity 1 and the product's
price. -/
theorem createOrder_total_and_items_witness :
    ((createOrder sampleDB ⟨1, [1, 2]⟩).1.success = true ∧
        (createOrder sampleDB ⟨1, [1, 2]⟩).1.order =
          some ⟨1, 1, ([⟨1, "Laptop", 10, 5⟩, ⟨2, "Mouse", 20, 50⟩].map Product.price).sum⟩ ∧
        (createOrder sampleDB ⟨1, [1, 2]⟩).2.orderItems.length = 0 + 2 ∧
        ((createOrder sampleDB ⟨1, [1, 2]⟩).2.orderItems.drop 0).map
            (fun it => (it.orderId, it.productId, it.quantity, it.unitPrice)) =
          [(1, 1, 1, (10 : Rat)), (1, 2, 1, (20 : Rat))] ∧
        (createOrder sampleDB ⟨1, [1, 2]⟩).2.orderItems.take 0 = []) ∧
      ([⟨1, "Laptop", 10, 5⟩, ⟨2, "Mouse", 20, 50⟩].map Product.price).sum = 30 := by
  have h := createOrder_total_and_items sampleDB ⟨1, [1, 2]⟩
    ⟨1, "Alice Johnson", "alice@example.com", none⟩
    [⟨1, "Laptop", 10, 5⟩, ⟨2, "Mouse", 20, 50⟩]
    rfl rfl (by simp)
  exact ⟨⟨h.1, h.2.1, h.2.2.1, h.2.2.2.1, h.2.2.2.2⟩, by norm_num⟩

/-- C2: every failing createOrder call returns the failure envelope with a
null order and leaves the store unchanged; a missing customer fails first
with "Customer does not exist", and otherwise the first missing product id,
in input order, is named in the failure message. -/
theorem createOrder_failure (db : DB) (input : OrderInput) :
    (getCustomer db input.customerId = none →
        createOrder db input = (⟨none, "Customer does not exist", false⟩, db)) ∧
      (∀ c pre pid rest, getCustomer db input.customerId = some c →
        input.productIds = pre ++ pid :: rest →
        (∀ q ∈ pre, getProduct db q ≠ none) →
        getProduct db pid = none →
        createOrder db input =
          (⟨none, "Product with ID " ++ toString pid ++ " does not exist", false⟩, db)) ∧
      ((createOrder db input).1.success = false →
        (createOrder db input).1.order = none ∧ (createOrder db input).2 = db) := by
  refine ⟨fun h => ?_, fun c pre pid rest hc hpids hpre hpid => ?_, fun h => ?_⟩
  · simp [createOrder, h]
  · have hmiss := resolveProducts_first_missing db pre pid rest hpre hpid
    rw [← hpids] at hmiss
    simp [createOrder, hc, hmiss]
  · rcases hc : getCustomer db input.customerId with _ | c
    · simp [createOrder, hc]
    · rcases hr : resolveProducts db input.productIds with e | ps
      · simp [createOrder, hc, hr]
      · cases hie : ps.isEmpty with
        | true => simp [createOrder, hc, hr, hie]
        | false =>
          exfalso
          rw [show (createOrder db input).1.success = true by
            simp only [createOrder, hc, hr, hie, Bool.false_eq_true, if_false]] at h
          cases h

/-- C2 witness: on the sample store, a missing customer id fails with
"Customer does not exist" and no state change; a missing product id 9 behind
the resolvable id 1 fails naming id 9, with a null order and no state
change. -/
theorem createOrder_failure_witness :
    createOrder sampleDB ⟨7, [1]⟩ = (⟨none, "Customer does not exist", false⟩, sampleDB) ∧
      createOrder sampleDB ⟨1, [1, 9, 8]⟩ =
        (⟨none, "Product with ID " ++ toString 9 ++ " does not exist", false⟩, sampleDB) ∧
      (createOrder sampleDB ⟨1, [1, 9, 8]⟩).1.order = none ∧
      (createOrder sampleDB ⟨1, [1, 9, 8]⟩).2 = sampleDB := by
  have h2 := (createOrder_failure sampleDB ⟨1, [1, 9, 8]⟩).2.1
    ⟨1, "Alice Johnson", "alice@example.com", none⟩ [1] 9 [8] rfl rfl
    (by intro q hq; simp at hq; subst hq; decide) rfl
  have h3 := (createOrder_failure sampleDB ⟨1, [1, 9, 8]⟩).2.2 (by rw [h2])
  exact ⟨(createOrder_failure sampleDB ⟨7, [1]⟩).1 rfl, h2, h3.1, h3.2⟩

/-- C7: createProduct fails on a non-positive price, fails on a negative
stock, and otherwise persists and returns the product, with an omitted
stock persisted as 0. -/
theorem createProduct_contract (db : DB) (input : ProductInput) :
    (input.price ≤ 0 →
        createProduct db input = (⟨none, "Price must be positive", false⟩, db)) ∧
      (0 < input.price → input.stock.getD 0 < 0 →
        createProduct db input = (⟨none, "Stock cannot be negative", false⟩, db)) ∧
      (0 < input.price → 0 ≤ input.stock.getD 0 →
        (createProduct db input).1 =
          ⟨some ⟨db.nextProductId, input.name, input.price, input.stock.getD 0⟩,
           "Product created successfully", true⟩ ∧
        (createProduct db input).2.products =
          db.products ++ [⟨db.nextProductId, input.name, input.price, input.stock.getD 0⟩]) ∧
      (0 < input.price → input.stock = none →
        (createProduct db input).1.product =
          some ⟨db.nextProductId, input.name, input.price, 0⟩) := by
  refine ⟨fun h1 => ?_, fun h1 h2 => ?_, fun h1 h2 => ?_, fun h1 h2 => ?_⟩
  · simp [createProduct, h1]
  · rw [createProduct.eq_def, if_neg (not_le.mpr h1)]
    simp only [if_pos h2]
  · rw [createProduct.eq_def, if_neg (not_le.mpr h1)]
    simp only [if_neg (not_lt.mpr h2)]
    exact ⟨by trivial, by trivial⟩
  · rw [createProduct.eq_def, if_neg (not_le.mpr h1), h2]
    simp

/-- C7 witness: price 0 and price -5 both fail; price 29.99 with stock
omitted persists the product with stock 0. -/
theorem createProduct_contract_witness :
    createProduct DB.empty ⟨"Zero", 0, none⟩ =
        (⟨none, "Price must be positive", false⟩, DB.empty) ∧
      createProduct DB.empty ⟨"Neg", -5, none⟩ =
        (⟨none, "Price must be positive", false⟩, DB.empty) ∧
      createProduct DB.empty ⟨"NegStock", 10, some (-3)⟩ =
        (⟨none, "Stock cannot be negative", false⟩, DB.empty) ∧
      (createProduct DB.empty ⟨"Mouse", 29.99, none⟩).1.product =
        some ⟨1, "Mouse", 29.99, 0⟩ := by
  refine ⟨(createProduct_contract DB.empty ⟨"Zero", 0, none⟩).1 (by norm_num),
    (createProduct_contract DB.empty ⟨"Neg", -5, none⟩).1 (by norm_num),
    (createProduct_contract DB.empty ⟨"NegStock", 10, some (-3)⟩).2.1 (by norm_num) (by norm_num),
    (createProduct_contract DB.empty ⟨"Mouse", 29.99, none⟩).2.2.2 (by norm_num) rfl⟩

/-- A non-empty id list resolves, when it resolves, to a non-empty product
list. -/
theorem resolveProducts_ok_ne_nil (db : DB) (pids : List Nat) (ps : List Product)
    (hpids : pids ≠ []) (hps : resolveProducts db pids = Except.ok ps) :
    ps ≠ [] := by
  intro hemp
  have hl := resolveProducts_ok_length db pids ps hps
  rw [hemp] at hl
  exact hpids (List.length_eq_zero.mp hl.symm)

/-- C8: for every input with a non-empty product id list, the
"At least one product is required" branch of createOrder is unreachable:
successful resolution yields a non-empty product list, and the mutation never
returns that message. -/
theorem empty_product_check_unreachable (db : DB) (input : OrderInput)
    (h : input.productIds ≠ []) :
    (∀ ps, resolveProducts db input.productIds = Except.ok ps → ps ≠ []) ∧
      (createOrder db input).1.message ≠ "At least one product is required" := by
  refine ⟨fun ps hps => resolveProducts_ok_ne_nil db input.productIds ps h hps, ?_⟩
  rcases hc : getCustomer db input.customerId with _ | c
  · simp only [createOrder, hc]
    decide
  · rcases hr : resolveProducts db input.productIds with e | ps
    · obtain ⟨pid, rfl⟩ := resolveProducts_error_shape db input.productIds e hr
      simp only [createOrder, hc, hr]
      rw [String.append_assoc]
      exact product_msg_ne_empty_msg _
    · have hne : ps ≠ [] := resolveProducts_ok_ne_nil db input.productIds ps h hr
      have hie2 : ps.isEmpty = false := by
        cases ps with
        | nil => exact absurd rfl hne
        | cons p rest => rfl
      simp only [createOrder, hc, hr, hie2, Bool.false_eq_true, if_false]
      decide

/-- C8 witness: with the single unresolvable product id 9, the call fails at
product resolution, never with the empty-list message. -/
theorem empty_product_check_unreachable_witness :
    (∀ ps, resolveProducts sampleDB [9] = Except.ok ps → ps ≠ []) ∧
      (createOrder sampleDB ⟨1, [9]⟩).1.message ≠ "At least one product is required" :=
  empty_product_check_unreachable sampleDB ⟨1, [9]⟩ (by decide)

/-- C5: every bulkCreateCustomers call returns exactly the successfully
created customers and, in input order, one error string per failed entry
(the ok and error parts of the per-input outcome list); the success flag is
true iff at least one customer was created; an empty input list yields empty
customers, empty errors and success false. -/
theorem bulkCreateCustomers_spec (db : DB) (inputs : List CustomerInput) :
    (bulkCreateCustomers db inputs).1.customers =
        (bulkOutcomes db inputs).filterMap Except.toOption ∧
      (bulkCreateCustomers db inputs).1.errors =
        (bulkOutcomes db inputs).filterMap
          (fun r => match r with | Except.error e => some e | Except.ok _ => none) ∧
      ((bulkCreateCustomers db inputs).1.success = true ↔
        (bulkCreateCustomers db inputs).1.customers ≠ []) ∧
      bulkCreateCustomers db [] = (⟨[], [], false⟩, db) := by
  refine ⟨(bulkLoop_outcomes db inputs).1, (bulkLoop_outcomes db inputs).2, ?_, ?_⟩
  · simp only [bulkCreateCustomers, decide_eq_true_eq]
    exact List.length_pos
  · simp [bulkCreateCustomers, bulkLoop]

/-- C6: a failing row in a bulk call neither rolls back nor prevents the
other rows: dropping the failing row from the batch leaves the created
customers and the final store identical and removes exactly one error; and
the final customer table is the initial table with every created row
appended. -/
theorem bulk_row_failure_isolated (db : DB) (pre post : List CustomerInput)
    (bad : CustomerInput) (e : String)
    (hfail : (processOne (bulkLoop db [] [] pre).1 bad).2 = Except.error e) :
    (bulkCreateCustomers db (pre ++ bad :: post)).1.customers =
        (bulkCreateCustomers db (pre ++ post)).1.customers ∧
      (bulkCreateCustomers db (pre ++ bad :: post)).2 =
        (bulkCreateCustomers db (pre ++ post)).2 ∧
      (bulkCreateCustomers db (pre ++ bad :: post)).1.errors.length =
        (bulkCreateCustomers db (pre ++ post)).1.errors.length + 1 ∧
      (bulkCreateCustomers db (pre ++ bad :: post)).2.customers =
        db.customers ++ (bulkCreateCustomers db (pre ++ bad :: post)).1.customers := by
  have hstep : bulkLoop (bulkLoop db [] [] pre).1 [] [] (bad :: post) =
      ((bulkLoop (bulkLoop db [] [] pre).1 [] [] post).1,
       (bulkLoop (bulkLoop db [] [] pre).1 [] [] post).2.1,
       e :: (bulkLoop (bulkLoop db [] [] pre).1 [] [] post).2.2) := by
    rcases hp : processOne (bulkLoop db [] [] pre).1 bad with ⟨d2, r⟩
    have hr : r = Except.error e := by rw [hp] at hfail; exact hfail
    have hd2 : d2 = (bulkLoop db [] [] pre).1 := by
      have := processOne_error_db (bulkLoop db [] [] pre).1 bad e (by rw [hp, hr])
      rw [hp] at this
      exact this
    subst hr hd2
    simp only [bulkLoop, hp]
    rw [bulkLoop_acc _ [] ([] ++ [e]) post]
    simp
  have happ1 := bulkLoop_append db pre (bad :: post)
  have happ2 := bulkLoop_append db pre post
  refine ⟨?_, ?_, ?_, ?_⟩
  · simp only [bulkCreateCustomers, happ1, happ2, hstep]
  · simp only [bulkCreateCustomers, happ1, happ2, hstep]
  · simp only [bulkCreateCustomers, happ1, happ2, hstep]
    simp
    omega
  · simp only [bulkCreateCustomers]
    exact bulkLoop_db_customers db (pre ++ bad :: post)

/-- C6 witness: in a batch of three where the middle row repeats the first
row's email, the two valid rows are persisted exactly as they are without the
failing row, one error is collected, and the final table is the initial one
plus the created rows. -/
theorem bulk_row_failure_isolated_witness :
    (processOne (bulkLoop DB.empty [] [] [⟨"A", "a@x.com", none⟩]).1
        ⟨"B", "a@x.com", none⟩).2 = Except.error "Email a@x.com already exists" ∧
      (bulkCreateCustomers DB.empty
          [⟨"A", "a@x.com", none⟩, ⟨"B", "a@x.com", none⟩, ⟨"C", "c@x.com", none⟩]).1.customers =
        (bulkCreateCustomers DB.empty
          [⟨"A", "a@x.com", none⟩, ⟨"C", "c@x.com", none⟩]).1.customers ∧
      (bulkCreateCustomers DB.empty
          [⟨"A", "a@x.com", none⟩, ⟨"B", "a@x.com", none⟩, ⟨"C", "c@x.com", none⟩]).2 =
        (bulkCreateCustomers DB.empty
          [⟨"A", "a@x.com", none⟩, ⟨"C", "c@x.com", none⟩]).2 ∧
      (bulkCreateCustomers DB.empty
          [⟨"A", "a@x.com", none⟩, ⟨"B", "a@x.com", none⟩, ⟨"C", "c@x.com", none⟩]).1.errors.length =
        (bulkCreateCustomers DB.empty
          [⟨"A", "a@x.com", none⟩, ⟨"C", "c@x.com", none⟩]).1.errors.length + 1 ∧
      (bulkCreateCustomers DB.empty
          [⟨"A", "a@x.com", none⟩, ⟨"B", "a@x.com", none⟩, ⟨"C", "c@x.com", none⟩]).2.customers =
        DB.empty.customers ++
          (bulkCreateCustomers DB.empty
            [⟨"A", "a@x.com", none⟩, ⟨"B", "a@x.com", none⟩, ⟨"C", "c@x.com", none⟩]).1.customers := by
  have h := bulk_row_failure_isolated DB.empty [⟨"A", "a@x.com", none⟩]
    [⟨"C", "c@x.com", none⟩] ⟨"B", "a@x.com", none⟩
    "Email a@x.com already exists" rfl
  exact ⟨rfl, h.1, h.2.1, h.2.2.1, h.2.2.2⟩

end Crm
